import Mathlib

/-!
Verification of the OpenSerp wrapper client pipeline.

This development shallowly embeds `src/openserp_wrapper/client.py`:
the retry adapter configured in `OpenSerpClient._create_session`
(urllib3 `Retry(total=3, backoff_factor=1, status_forcelist=[429, 500, 502, 503, 504])`),
the `search` pipeline (validation, rate-limit gate, cache consult,
network call, typed error mapping, cache store), and the static cache
key generator `_generate_cache_key`.

The repository imports `cache.py` and `rate_limiter.py`, but those files
are not present in the source tree; their behaviour is modelled from the
specification where needed (see the doc comments of `cacheGet`,
`cacheSet` and `CacheSetBehavior`).
-/

namespace OpenSerp

/-- A parsed JSON-object payload, modelled as an association list of
string fields. Python truthiness of a dict corresponds to the list being
nonempty. -/
abbrev Payload := List (String × String)

/-- Outcome of one low-level HTTP attempt seen by the urllib3 retry
machinery: either a response with a status code, or a transport-level
connection failure. -/
inductive AttemptOutcome
  | resp (status : Int)
  | connFail
deriving DecidableEq

/-- Statuses in the `status_forcelist` of the `Retry` strategy built in
`OpenSerpClient._create_session` (client.py line 59). -/
def forcelist : List Int := [429, 500, 502, 503, 504]

/-- An attempt outcome triggers a retry iff it is a connection failure
or a response whose status is in the forcelist (urllib3 `Retry.is_retry`
with the configured `status_forcelist`). -/
def retryable : AttemptOutcome → Bool
  | .resp s => forcelist.contains s
  | .connFail => true

/-- Result of the whole retry loop: a delivered (non-retryable) outcome,
or exhaustion of the retry budget (urllib3 `MaxRetryError`). -/
inductive RetryResult
  | delivered (o : AttemptOutcome)
  | exhausted
deriving DecidableEq

/-- The `total=3` retry budget configured in client.py line 57. In
urllib3, `total` counts RETRIES: `Retry.increment` decrements it once
per failed attempt and `is_exhausted` fires when a counter drops below
zero, so `total=3` allows one initial attempt plus three retries. -/
def retryTotal : Nat := 3

/-- The urllib3 retry loop around a transport: `transport i` is the
outcome of the i-th attempt. Returns the final result together with the
number of attempts made. A retryable outcome with no retries left
raises exhaustion; otherwise the loop retries with one fewer retry
remaining. -/
def runRetry (transport : Nat → AttemptOutcome) (retriesLeft i : Nat) :
    RetryResult × Nat :=
  let o := transport i
  if retryable o then
    match retriesLeft with
    | 0 => (.exhausted, 1)
    | n + 1 =>
      let r := runRetry transport n (i + 1)
      (r.1, r.2 + 1)
  else
    (.delivered o, 1)

/-- Cache key generation, mirroring `OpenSerpClient._generate_cache_key`
(client.py lines 205-214): engines are sorted ascending and joined with
a comma, or the sentinel "all" when the engine list is empty/absent. -/
def generateCacheKey (text : String) (engines : List String)
    (limit offset : Int) : String :=
  let engineStr :=
    if engines.isEmpty then "all"
    else String.intercalate ","
      (List.insertionSort (fun a b : String => a ≤ b) engines)
  "search:" ++ text ++ ":" ++ engineStr ++ ":" ++ toString limit
    ++ ":" ++ toString offset

/-- The query text argument of `search`: a Python string, or a
non-string value (any non-string fails the `isinstance(text, str)`
check in client.py line 101). -/
inductive TextInput
  | str (s : String)
  | nonStr
deriving DecidableEq

/-- Typed errors of the wrapper, mirroring exceptions.py. `connection`
carries the optional machine code of `OpenSerpException.code`;
`apiError` carries `OpenSerpAPIError.status_code`. `cacheRaised` stands
for an arbitrary non-requests exception escaping a cache operation,
which none of the handlers in client.py lines 163-170 catch. -/
inductive SerpError
  | validation (msg : String)
  | connection (msg : String) (code : Option String)
  | timeoutError (msg : String)
  | apiError (msg : String) (statusCode : Int)
  | cacheRaised (msg : String)
deriving DecidableEq

/-- Result of one `search` invocation: the returned payload, or the
raised typed error. -/
inductive SearchResult
  | ok (payload : Payload)
  | err (e : SerpError)
deriving DecidableEq

/-- Final outcome of the session-level network call
`self.session.get(...)` in client.py lines 138-143: a delivered
response (status, body text, parsed JSON payload), or one of the
requests exception classes handled in lines 163-170. -/
inductive SessionResult
  | ok (status : Int) (bodyText : String) (payload : Payload)
  | timeoutExc
  | connExc
  | reqExc (msg : String)
deriving DecidableEq

/-- Arguments of one `search` call (client.py lines 68-78). `engines`
models both `None` and a list: Python only ever tests its truthiness,
so `None` and `[]` coincide and are both modelled as `[]`. -/
structure Request where
  text : TextInput
  engines : List String
  limit : Int
  offset : Int
  dateFrom : Option String
  dateTo : Option String
  language : Option String
  sort : String
deriving DecidableEq

/-- Client construction-time configuration (client.py lines 35-50). -/
structure Config where
  baseUrl : String
  timeout : Int
  cacheTtl : Int
  hasRateLimiter : Bool
deriving DecidableEq

/-- Modelled from the spec: the cache state of the `Cache` contract in
`cache.py`, which is absent from the source tree. Spec section 4.1 and
the CacheEntry data model: each entry owns a value plus an absolute
expiry timestamp computed at write time (written_at + ttl); an entry is
dead once the current time exceeds its expiry. -/
structure CacheState where
  entries : List (String × Payload × Int)
deriving DecidableEq

/-- Modelled from the spec: `Cache.get(key)` returns the stored value
if present and not expired, and a miss otherwise (spec section 4.1).
Dead means the current time exceeds the expiry, so a stored entry is
returned while now is at most its expiry. -/
def cacheGet (c : CacheState) (now : Int) (k : String) : Option Payload :=
  match c.entries.find? (fun e => e.1 == k) with
  | some e => if now ≤ e.2.2 then some e.2.1 else none
  | none => none

/-- Modelled from the spec: `Cache.set(key, value, ttl)` stores the
value with absolute expiry now + ttl, overwriting any existing entry
unconditionally (spec section 4.1). -/
def cacheSet (c : CacheState) (now : Int) (k : String) (v : Payload)
    (ttl : Int) : CacheState :=
  ⟨(k, v, now + ttl) :: c.entries.filter (fun e => e.1 ≠ k)⟩

/-- Behaviour of the cache-store step for one `search` call.
`backendFails` is a spec-conforming backend hiccup: per spec section
4.1 the `set` implementation swallows it and degrades to a no-op
without raising. `raises` models a non-conforming `set` that raises an
exception to the pipeline; client.py lines 163-170 catch only requests
exceptions, so such an exception propagates out of `search`. -/
structure CacheSetBehavior where
  backendFails : Bool
  raises : Bool
deriving DecidableEq

/-- Python truthiness of an optional-string argument: present and
non-empty. -/
def optTruthy : Option String → Bool
  | some s => s != ""
  | none => false

/-- The string carried by an optional-string argument (only used when
it is truthy). -/
def optStr : Option String → String
  | some s => s
  | none => ""

/-- Input validation of `search` (client.py lines 100-106), run before
any rate-limit, cache or network step. Returns the raised validation
error, or none when the input passes. -/
def validationError (req : Request) : Option SerpError :=
  match req.text with
  | .nonStr => some (.validation "Search text must be a non-empty string")
  | .str s =>
    if s = "" then
      some (.validation "Search text must be a non-empty string")
    else if req.limit < 1 ∨ 100 < req.limit then
      some (.validation "Limit must be between 1 and 100")
    else if req.offset < 0 then
      some (.validation "Offset must be non-negative")
    else
      none

/-- The date entries of the outgoing query parameters (client.py lines
128-133): both bounds truthy yields one combined "date" range, a
single truthy bound yields its single-sided parameter, otherwise
nothing. -/
def dateParams (dateFrom dateTo : Option String) : List (String × String) :=
  if optTruthy dateFrom && optTruthy dateTo then
    [("date", optStr dateFrom ++ ".." ++ optStr dateTo)]
  else if optTruthy dateFrom then
    [("date_from", optStr dateFrom)]
  else if optTruthy dateTo then
    [("date_to", optStr dateTo)]
  else
    []

/-- The outgoing query parameters assembled by `search` (client.py
lines 119-135), in insertion order; the wire serialization of engines
preserves caller order, unlike the cache key. -/
def buildParams (text : String) (engines : List String)
    (limit offset : Int) (dateFrom dateTo language : Option String)
    (sort : String) : List (String × String) :=
  [("text", text), ("limit", toString limit),
      ("offset", toString offset), ("sort", sort)]
    ++ (if engines.isEmpty then []
        else [("engines", String.intercalate "," engines)])
    ++ dateParams dateFrom dateTo
    ++ (if optTruthy language then [("lang", optStr language)] else [])

/-- The string content of the text argument (meaningful once validation
passed, which forces the `str` case). -/
def textOf : TextInput → String
  | .str s => s
  | .nonStr => ""

/-- The cache key `search` computes for a request (client.py line 113). -/
def requestKey (req : Request) : String :=
  generateCacheKey (textOf req.text) req.engines req.limit req.offset

/-- The truthy cache consult of client.py lines 114-116: `get` followed
by the truthiness test `if cached_result:`, so a stored falsy (empty)
payload behaves like a miss. -/
def cacheHit (c : CacheState) (now : Int) (k : String) : Option Payload :=
  match cacheGet c now k with
  | some v => if v = [] then none else some v
  | none => none

/-- Observable trace of one `search` invocation: its result plus
counters of session-level network calls, rate-limiter waits and cache
operations, and the cache state afterwards. -/
structure SearchTrace where
  result : SearchResult
  networkCalls : Nat
  rateLimiterWaits : Nat
  cacheGetCalls : Nat
  cacheSetCalls : Nat
  cacheAfter : CacheState
deriving DecidableEq

/-- The `search` pipeline of client.py lines 68-170: validation,
rate-limit gate, cache consult, network call (whose session-level
outcome is the `session` argument), typed error mapping and cache
store. -/
def search (cfg : Config) (req : Request) (cache : CacheState)
    (now : Int) (session : SessionResult) (setBeh : CacheSetBehavior) :
    SearchTrace :=
  match validationError req with
  | some e => ⟨.err e, 0, 0, 0, 0, cache⟩
  | none =>
    let waits := if cfg.hasRateLimiter then 1 else 0
    let key := requestKey req
    match cacheHit cache now key with
    | some v => ⟨.ok v, 0, waits, 1, 0, cache⟩
    | none =>
      match session with
      | .ok status body payload =>
        if status = 429 then
          ⟨.err (.connection "Rate limited by OpenSerp server"
              (some "RATE_LIMIT")), 1, waits, 1, 0, cache⟩
        else if 400 ≤ status then
          ⟨.err (.apiError ("API error: " ++ body) status),
            1, waits, 1, 0, cache⟩
        else if setBeh.raises then
          ⟨.err (.cacheRaised "cache set raised"), 1, waits, 1, 1, cache⟩
        else if setBeh.backendFails then
          ⟨.ok payload, 1, waits, 1, 1, cache⟩
        else
          ⟨.ok payload, 1, waits, 1, 1,
            cacheSet cache now key payload cfg.cacheTtl⟩
      | .timeoutExc =>
        ⟨.err (.timeoutError
            ("Request timeout after " ++ toString cfg.timeout ++ "s")),
          1, waits, 1, 0, cache⟩
      | .connExc =>
        ⟨.err (.connection ("Failed to connect to " ++ cfg.baseUrl) none),
          1, waits, 1, 0, cache⟩
      | .reqExc msg =>
        ⟨.err (.connection ("Request error: " ++ msg) none),
          1, waits, 1, 0, cache⟩

/-- An input is invalid exactly when one of the three validation checks
of client.py lines 100-106 fires. -/
def invalidInput (req : Request) : Prop :=
  req.text = .nonStr ∨ req.text = .str "" ∨ req.limit < 1
    ∨ 100 < req.limit ∨ req.offset < 0

/-- An input satisfying all three validation conditions: the text is a
string and non-empty, the limit is in [1,100], the offset is
non-negative. -/
def validInput (req : Request) : Prop :=
  req.text ≠ .nonStr ∧ req.text ≠ .str "" ∧ 1 ≤ req.limit
    ∧ req.limit ≤ 100 ∧ 0 ≤ req.offset

instance (req : Request) : Decidable (invalidInput req) :=
  inferInstanceAs (Decidable (req.text = .nonStr ∨ req.text = .str ""
    ∨ req.limit < 1 ∨ 100 < req.limit ∨ req.offset < 0))

instance (req : Request) : Decidable (validInput req) :=
  inferInstanceAs (Decidable (req.text ≠ .nonStr ∧ req.text ≠ .str ""
    ∧ 1 ≤ req.limit ∧ req.limit ≤ 100 ∧ 0 ≤ req.offset))

/-- Whether a search result is a raised Validation error. -/
def isValidationErr : SearchResult → Bool
  | .err (.validation _) => true
  | _ => false

end OpenSerp

namespace OpenSerp

/-- Claim C5: for every text, limit, offset, cache-key generation is
invariant under permutation of the engine list, so two
logically-identical requests produce identical keys regardless of
engine-list input ordering. -/
theorem C5_cache_key_perm_invariant (text : String) (e1 e2 : List String)
    (limit offset : Int) (h : e1.Perm e2) :
    generateCacheKey text e1 limit offset
      = generateCacheKey text e2 limit offset := by
  unfold generateCacheKey
  have hlen : e1.length = e2.length := h.length_eq
  have hempty : e1.isEmpty = e2.isEmpty := by
    cases e1 <;> cases e2 <;> simp_all
  have hs1 : List.Sorted (fun a b : String => a ≤ b)
      (List.insertionSort (fun a b : String => a ≤ b) e1) :=
    List.sorted_insertionSort _ e1
  have hs2 : List.Sorted (fun a b : String => a ≤ b)
      (List.insertionSort (fun a b : String => a ≤ b) e2) :=
    List.sorted_insertionSort _ e2
  have hp : (List.insertionSort (fun a b : String => a ≤ b) e1).Perm
      (List.insertionSort (fun a b : String => a ≤ b) e2) :=
    ((List.perm_insertionSort _ e1).trans h).trans
      (List.perm_insertionSort _ e2).symm
  have hsort := List.eq_of_perm_of_sorted hp hs1 hs2
  rw [hempty, hsort]

/-- Claim C5 witness: the key for engines ["b","a"] equals the key for
engines ["a","b"]. -/
theorem C5_cache_key_perm_invariant_witness :
    generateCacheKey "t" ["b", "a"] 5 0
      = generateCacheKey "t" ["a", "b"] 5 0 :=
  C5_cache_key_perm_invariant "t" ["b", "a"] ["a", "b"] 5 0
    (List.Perm.swap "a" "b" [])

/-- A transport that returns status 503 on the first three attempts and
200 from the fourth attempt on. -/
def transport503x3 : Nat → AttemptOutcome :=
  fun i => if i < 3 then .resp 503 else .resp 200

/-- Claim C1 counterexample: with the configured budget (urllib3
`Retry(total=3)` counts retries, not attempts), a transport returning
503 on all of the first three attempts does not end in an
exhausted-retry failure: the client makes a fourth attempt, exceeding
the claimed bound of 3 total attempts, and succeeds with the 200
delivered there. -/
theorem C1_retry_counterexample :
    runRetry transport503x3 retryTotal 0
        = (.delivered (.resp 200), 4) ∧
      ¬ (runRetry transport503x3 retryTotal 0).2 ≤ 3 := by
  decide

/-- Claim C1 (amended): the client makes at most 4 total network
attempts (one initial attempt plus 3 retries): a transport returning
503 on every attempt results in an exhausted-retry failure after
exactly 4 attempts; a transport returning 503 on the first two attempts
and 200 on the third results in exactly 3 attempts and a success
outcome; retries occur only on statuses {429, 500, 502, 503, 504} or
transport-level connection failures, never on other statuses such as
plain 4xx, which are delivered after a single attempt. -/
theorem C1_retry_policy :
    (∀ (t : Nat → AttemptOutcome) (rl i : Nat),
      (runRetry t rl i).2 ≤ rl + 1) ∧
    (∀ t : Nat → AttemptOutcome, (∀ i, t i = .resp 503) →
      runRetry t retryTotal 0 = (.exhausted, 4)) ∧
    (∀ t : Nat → AttemptOutcome,
      t 0 = .resp 503 → t 1 = .resp 503 → t 2 = .resp 200 →
      runRetry t retryTotal 0 = (.delivered (.resp 200), 3)) ∧
    (∀ (t : Nat → AttemptOutcome) (rl i : Nat),
      retryable (t i) = false → runRetry t rl i = (.delivered (t i), 1)) := by
  have part1 : ∀ (t : Nat → AttemptOutcome) (rl i : Nat),
      (runRetry t rl i).2 ≤ rl + 1 := by
    intro t rl
    induction rl with
    | zero =>
      intro i
      unfold runRetry
      dsimp only
      split
      · simp
      · simp
    | succ n ih =>
      intro i
      unfold runRetry
      dsimp only
      split
      · have := ih (i + 1)
        simpa using Nat.add_le_add_right this 1
      · simp
  have part4 : ∀ (t : Nat → AttemptOutcome) (rl i : Nat),
      retryable (t i) = false → runRetry t rl i = (.delivered (t i), 1) := by
    intro t rl i h
    unfold runRetry
    simp [h]
  have part2 : ∀ t : Nat → AttemptOutcome, (∀ i, t i = .resp 503) →
      runRetry t retryTotal 0 = (.exhausted, 4) := by
    intro t h
    have hr : retryable (AttemptOutcome.resp 503) = true := by decide
    unfold retryTotal
    unfold runRetry
    simp only [h 0, hr, if_true]
    unfold runRetry
    simp only [h 1, hr, if_true]
    unfold runRetry
    simp only [h 2, hr, if_true]
    unfold runRetry
    simp only [h 3, hr, if_true]
  have part3 : ∀ t : Nat → AttemptOutcome,
      t 0 = .resp 503 → t 1 = .resp 503 → t 2 = .resp 200 →
      runRetry t retryTotal 0 = (.delivered (.resp 200), 3) := by
    intro t h0 h1 h2
    have hr : retryable (AttemptOutcome.resp 503) = true := by decide
    have hn : retryable (AttemptOutcome.resp 200) = false := by decide
    unfold retryTotal
    unfold runRetry
    simp only [h0, hr, if_true]
    unfold runRetry
    simp only [h1, hr, if_true]
    unfold runRetry
    simp only [h2, hn, Bool.false_eq_true, if_false]
  exact ⟨part1, part2, part3, part4⟩

/-- Claim C1 witness: a transport that always returns 503 exhausts
after 4 attempts, and a transport returning 404 is delivered after a
single attempt with no retry. -/
theorem C1_retry_policy_witness :
    runRetry (fun _ => .resp 503) retryTotal 0 = (.exhausted, 4) ∧
      runRetry (fun _ => .resp 404) retryTotal 0
        = (.delivered (.resp 404), 1) :=
  ⟨C1_retry_policy.2.1 _ (fun _ => rfl),
   C1_retry_policy.2.2.2 _ retryTotal 0 (by decide)⟩

/-- An invalid input makes the validation step of client.py lines
100-106 produce a validation error. -/
theorem validationError_of_invalid {req : Request} (h : invalidInput req) :
    ∃ m, validationError req = some (.validation m) := by
  cases hx : req.text with
  | nonStr =>
    exact ⟨"Search text must be a non-empty string",
      by simp [validationError, hx]⟩
  | str s =>
    by_cases h1 : s = ""
    · exact ⟨"Search text must be a non-empty string",
        by simp [validationError, hx, h1]⟩
    · by_cases h2 : req.limit < 1 ∨ 100 < req.limit
      · exact ⟨"Limit must be between 1 and 100",
          by simp [validationError, hx, h1, h2]⟩
      · by_cases h3 : req.offset < 0
        · exact ⟨"Offset must be non-negative",
            by simp [validationError, hx, h1, h2, h3]⟩
        · exfalso
          rcases h with h | h | h | h | h
          · rw [hx] at h; cases h
          · rw [hx] at h
            injection h with he
            exact h1 he
          · exact h2 (Or.inl h)
          · exact h2 (Or.inr h)
          · exact h3 h

/-- A valid input passes the validation step of client.py lines
100-106. -/
theorem validationError_eq_none {req : Request} (h : validInput req) :
    validationError req = none := by
  obtain ⟨hn, hns, h1, h2, h3⟩ := h
  have hl : ¬ (req.limit < 1 ∨ 100 < req.limit) := by omega
  have ho : ¬ (req.offset < 0) := by omega
  cases hx : req.text with
  | nonStr => exact absurd hx hn
  | str s =>
    have hs : ¬ (s = "") := by
      intro he
      apply hns
      rw [hx, he]
    simp [validationError, hx, hs, hl, ho]

/-- Claim C2: an input whose text is empty (or not a string), or whose
limit is outside [1,100], or whose offset is negative makes `search`
raise a Validation error with zero network calls, zero cache
operations, an unchanged cache and no rate-limiter invocation;
conversely an input satisfying all three conditions passes validation
and `search` never raises a Validation error on it. -/
theorem C2_validation_short_circuit :
    (∀ cfg req cache now session setBeh, invalidInput req →
      isValidationErr (search cfg req cache now session setBeh).result
          = true ∧
      (search cfg req cache now session setBeh).networkCalls = 0 ∧
      (search cfg req cache now session setBeh).rateLimiterWaits = 0 ∧
      (search cfg req cache now session setBeh).cacheGetCalls = 0 ∧
      (search cfg req cache now session setBeh).cacheSetCalls = 0 ∧
      (search cfg req cache now session setBeh).cacheAfter = cache) ∧
    (∀ cfg req cache now session setBeh, validInput req →
      validationError req = none ∧
      isValidationErr (search cfg req cache now session setBeh).result
          = false) := by
  constructor
  · intro cfg req cache now session setBeh h
    obtain ⟨m, hm⟩ := validationError_of_invalid h
    refine ⟨?_, ?_, ?_, ?_, ?_, ?_⟩ <;> simp [search, hm, isValidationErr]
  · intro cfg req cache now session setBeh h
    have hv := validationError_eq_none h
    refine ⟨hv, ?_⟩
    simp only [search, hv]
    rcases hc : cacheHit cache now (requestKey req) with _ | v
    · rcases session with ⟨status, body, payload⟩ | _ | _ | msg
      · by_cases h429 : status = 429
        · simp [h429, isValidationErr]
        · by_cases h400 : 400 ≤ status
          · simp [h429, h400, isValidationErr]
          · by_cases hr : setBeh.raises = true
            · simp [h429, h400, hr, isValidationErr]
            · by_cases hb : setBeh.backendFails = true <;>
                simp [h429, h400, hr, hb, isValidationErr]
      · simp [isValidationErr]
      · simp [isValidationErr]
      · simp [isValidationErr]
    · simp [isValidationErr]

/-- Claim C2 witness: a limit of 0 yields a Validation error and
touches nothing, while a valid request passes validation. -/
theorem C2_validation_short_circuit_witness :
    (isValidationErr (search ⟨"http://localhost:7000", 30, 3600, false⟩
          ⟨.str "q", [], 0, 0, none, none, none, "relevance"⟩
          ⟨[]⟩ 0 (.ok 200 "" []) ⟨false, false⟩).result = true ∧
      (search ⟨"http://localhost:7000", 30, 3600, false⟩
          ⟨.str "q", [], 0, 0, none, none, none, "relevance"⟩
          ⟨[]⟩ 0 (.ok 200 "" []) ⟨false, false⟩).networkCalls = 0 ∧
      (search ⟨"http://localhost:7000", 30, 3600, false⟩
          ⟨.str "q", [], 0, 0, none, none, none, "relevance"⟩
          ⟨[]⟩ 0 (.ok 200 "" []) ⟨false, false⟩).rateLimiterWaits = 0 ∧
      (search ⟨"http://localhost:7000", 30, 3600, false⟩
          ⟨.str "q", [], 0, 0, none, none, none, "relevance"⟩
          ⟨[]⟩ 0 (.ok 200 "" []) ⟨false, false⟩).cacheGetCalls = 0 ∧
      (search ⟨"http://localhost:7000", 30, 3600, false⟩
          ⟨.str "q", [], 0, 0, none, none, none, "relevance"⟩
          ⟨[]⟩ 0 (.ok 200 "" []) ⟨false, false⟩).cacheSetCalls = 0 ∧
      (search ⟨"http://localhost:7000", 30, 3600, false⟩
          ⟨.str "q", [], 0, 0, none, none, none, "relevance"⟩
          ⟨[]⟩ 0 (.ok 200 "" []) ⟨false, false⟩).cacheAfter = ⟨[]⟩) ∧
    (validationError ⟨.str "q", [], 10, 0, none, none, none, "relevance"⟩
        = none ∧
      isValidationErr (search ⟨"http://localhost:7000", 30, 3600, false⟩
          ⟨.str "q", [], 10, 0, none, none, none, "relevance"⟩
          ⟨[]⟩ 0 (.ok 200 "" [("a", "b")]) ⟨false, false⟩).result
        = false) :=
  ⟨C2_validation_short_circuit.1 _ _ _ 0 _ _ (by decide),
   C2_validation_short_circuit.2 _ _ _ 0 _ _ (by decide)⟩

/-- Default client configuration of client.py lines 35-43, without a
rate limiter. -/
def cfgD : Config := ⟨"http://localhost:7000", 30, 3600, false⟩

/-- A simple valid request with default limit, offset and sort. -/
def reqD : Request := ⟨.str "q", [], 10, 0, none, none, none, "relevance"⟩

/-- The empty cache a fresh `InMemoryCache` starts with. -/
def emptyCache : CacheState := ⟨[]⟩

/-- A cache whose `set` neither hiccups nor raises. -/
def okSet : CacheSetBehavior := ⟨false, false⟩

/-- With a valid input, a truthy-miss cache consult and a delivered
response that is neither 429 nor an error status, `search` returns the
parsed payload after one network call and stores it under the request
key with the configured TTL (client.py lines 137-161). -/
theorem search_network_success (cfg : Config) (req : Request)
    (cache : CacheState) (now status : Int) (body : String) (p : Payload)
    (hval : validInput req)
    (hmiss : cacheHit cache now (requestKey req) = none)
    (h429 : ¬ status = 429) (h400 : ¬ 400 ≤ status) :
    search cfg req cache now (.ok status body p) ⟨false, false⟩
      = ⟨.ok p, 1, if cfg.hasRateLimiter then 1 else 0, 1, 1,
          cacheSet cache now (requestKey req) p cfg.cacheTtl⟩ := by
  have hv := validationError_eq_none hval
  simp [search, hv, hmiss, h429, h400]

/-- With a valid input and a truthy cache hit, `search` returns the
cached payload with no network call and no re-caching (client.py lines
112-116). -/
theorem search_cache_hit (cfg : Config) (req : Request)
    (cache : CacheState) (now : Int) (session : SessionResult)
    (setBeh : CacheSetBehavior) (v : Payload) (hval : validInput req)
    (hhit : cacheHit cache now (requestKey req) = some v) :
    search cfg req cache now session setBeh
      = ⟨.ok v, 0, if cfg.hasRateLimiter then 1 else 0, 1, 0, cache⟩ := by
  have hv := validationError_eq_none hval
  simp [search, hv, hhit]

/-- Reading a key just written returns the written value while the
current time is at most the write time plus the TTL. -/
theorem cacheGet_set_same (c : CacheState) (now t2 : Int) (k : String)
    (v : Payload) (ttl : Int) (h : t2 ≤ now + ttl) :
    cacheGet (cacheSet c now k v ttl) t2 k = some v := by
  simp [cacheGet, cacheSet, h]

/-- The truthy cache consult finds a just-written non-empty value
while it is within its TTL. -/
theorem cacheHit_set_same (c : CacheState) (now t2 : Int) (k : String)
    (v : Payload) (ttl : Int) (h : t2 ≤ now + ttl) (hv : v ≠ []) :
    cacheHit (cacheSet c now k v ttl) t2 k = some v := by
  simp [cacheHit, cacheGet_set_same c now t2 k v ttl h, hv]

/-- Claim C3 counterexample: the cache-hit test of client.py line 115
uses Python truthiness, so a successful first call whose payload is the
empty object stores it but the identical second call within the TTL
window is not served from cache: it issues a new network call (and
re-caches) instead of returning the cached payload. -/
theorem C3_cache_idempotence_counterexample :
    (search cfgD reqD emptyCache 0 (.ok 200 "" []) okSet).result
        = .ok [] ∧
    (search cfgD reqD emptyCache 0 (.ok 200 "" []) okSet).networkCalls
        = 1 ∧
    (search cfgD reqD
        (search cfgD reqD emptyCache 0 (.ok 200 "" []) okSet).cacheAfter
        1 (.ok 200 "" []) okSet).networkCalls = 1 ∧
    (search cfgD reqD
        (search cfgD reqD emptyCache 0 (.ok 200 "" []) okSet).cacheAfter
        1 (.ok 200 "" []) okSet).cacheSetCalls = 1 := by
  decide

/-- Claim C3 (amended): for every valid search request whose first call
succeeds over the network with a NON-EMPTY (truthy) payload, issuing
the identical request again within the TTL window yields the second
call served entirely from cache: zero additional network calls, no
re-caching, and both calls return the identical payload. An empty
payload, though cached, is treated as a miss on re-read and re-fetched
from the network. -/
theorem C3_cache_idempotence (cfg : Config) (req : Request)
    (cache : CacheState) (now t2 status : Int) (body : String)
    (p : Payload) (session2 : SessionResult) (setBeh2 : CacheSetBehavior)
    (hval : validInput req)
    (hmiss : cacheHit cache now (requestKey req) = none)
    (hst : status < 400) (hp : p ≠ [])
    (httl : t2 ≤ now + cfg.cacheTtl) :
    (search cfg req cache now (.ok status body p) ⟨false, false⟩).result
        = .ok p ∧
    (search cfg req cache now (.ok status body p)
        ⟨false, false⟩).networkCalls = 1 ∧
    (search cfg req
        (search cfg req cache now (.ok status body p)
          ⟨false, false⟩).cacheAfter
        t2 session2 setBeh2).result = .ok p ∧
    (search cfg req
        (search cfg req cache now (.ok status body p)
          ⟨false, false⟩).cacheAfter
        t2 session2 setBeh2).networkCalls = 0 ∧
    (search cfg req
        (search cfg req cache now (.ok status body p)
          ⟨false, false⟩).cacheAfter
        t2 session2 setBeh2).cacheSetCalls = 0 := by
  have h429 : ¬ status = 429 := by omega
  have h400 : ¬ 400 ≤ status := by omega
  have hfirst := search_network_success cfg req cache now status body p
    hval hmiss h429 h400
  have hafter : (search cfg req cache now (.ok status body p)
      ⟨false, false⟩).cacheAfter
      = cacheSet cache now (requestKey req) p cfg.cacheTtl := by
    rw [hfirst]
  have hhit : cacheHit (search cfg req cache now (.ok status body p)
      ⟨false, false⟩).cacheAfter t2 (requestKey req) = some p := by
    rw [hafter]
    exact cacheHit_set_same cache now t2 (requestKey req) p cfg.cacheTtl
      httl hp
  have hsecond := search_cache_hit cfg req
    (search cfg req cache now (.ok status body p) ⟨false, false⟩).cacheAfter
    t2 session2 setBeh2 p hval hhit
  refine ⟨?_, ?_, ?_, ?_, ?_⟩
  · rw [hfirst]
  · rw [hfirst]
  · rw [hsecond]
  · rw [hsecond]
  · rw [hsecond]

/-- Claim C3 witness: a concrete request whose first call succeeds with
a non-empty payload is served from cache on the identical second call
one time unit later. -/
theorem C3_cache_idempotence_witness :
    (search cfgD reqD emptyCache 0 (.ok 200 "" [("results", "x")])
        ⟨false, false⟩).result = .ok [("results", "x")] ∧
    (search cfgD reqD emptyCache 0 (.ok 200 "" [("results", "x")])
        ⟨false, false⟩).networkCalls = 1 ∧
    (search cfgD reqD
        (search cfgD reqD emptyCache 0 (.ok 200 "" [("results", "x")])
          ⟨false, false⟩).cacheAfter
        1 .connExc okSet).result = .ok [("results", "x")] ∧
    (search cfgD reqD
        (search cfgD reqD emptyCache 0 (.ok 200 "" [("results", "x")])
          ⟨false, false⟩).cacheAfter
        1 .connExc okSet).networkCalls = 0 ∧
    (search cfgD reqD
        (search cfgD reqD emptyCache 0 (.ok 200 "" [("results", "x")])
          ⟨false, false⟩).cacheAfter
        1 .connExc okSet).cacheSetCalls = 0 :=
  C3_cache_idempotence cfgD reqD emptyCache 0 1 200 ""
    [("results", "x")] .connExc okSet (by decide) (by decide)
    (by decide) (by decide) (by decide)

/-- Claim C4 counterexample: an exception actually raised by the
cache's `set` during the cache-store step is not caught by any handler
in client.py lines 163-170 (they catch only requests exceptions), so
the overall `search` call fails instead of returning the parsed
payload. -/
theorem C4_cache_write_counterexample :
    (search cfgD reqD emptyCache 0 (.ok 200 "" [("r", "1")])
        ⟨false, true⟩).result = .err (.cacheRaised "cache set raised") ∧
    (search cfgD reqD emptyCache 0 (.ok 200 "" [("r", "1")])
        ⟨false, true⟩).result ≠ .ok [("r", "1")] := by
  decide

/-- Claim C4 (amended): a backend failure during the cache-store step
is swallowed inside the cache's `set` operation, which degrades to a
no-op rather than raising (spec section 4.1), so for every search whose
network call succeeds, `search` still returns the parsed payload; an
exception actually raised by the `set` operation, however, propagates
and fails the search call. -/
theorem C4_cache_write_failure (cfg : Config) (req : Request)
    (cache : CacheState) (now status : Int) (body : String) (p : Payload)
    (backendFails : Bool) (hval : validInput req)
    (hmiss : cacheHit cache now (requestKey req) = none)
    (h429 : ¬ status = 429) (h400 : ¬ 400 ≤ status) :
    (search cfg req cache now (.ok status body p)
        ⟨backendFails, false⟩).result = .ok p := by
  have hv := validationError_eq_none hval
  cases backendFails
  · rw [search_network_success cfg req cache now status body p hval hmiss
      h429 h400]
  · simp [search, hv, hmiss, h429, h400]

/-- Claim C4 witness: with a hiccuping (but contract-conforming,
non-raising) cache backend, a concrete successful search still returns
its payload. -/
theorem C4_cache_write_failure_witness :
    (search cfgD reqD emptyCache 0 (.ok 200 "" [("r", "1")])
        ⟨true, false⟩).result = .ok [("r", "1")] :=
  C4_cache_write_failure cfgD reqD emptyCache 0 200 "" [("r", "1")] true
    (by decide) (by decide) (by decide) (by decide)

/-- The outcome of the attempt on which the retry loop stops: the first
non-retryable outcome, or the final retryable outcome once the budget
is exhausted. In urllib3 this final outcome is what `Retry.increment`
wraps as the reason of `MaxRetryError` (a `ResponseError` for a
forcelisted status, the connection error itself otherwise). -/
def lastAttempt (transport : Nat → AttemptOutcome) (retriesLeft i : Nat) :
    AttemptOutcome :=
  let o := transport i
  if retryable o then
    match retriesLeft with
    | 0 => o
    | n + 1 => lastAttempt transport n (i + 1)
  else o

/-- Session-level outcome of one `session.get` through the adapter
mounted by `_create_session`, composing the urllib3 retry loop with
requests HTTPAdapter.send: a non-retryable outcome is delivered as the
response (with the given body text and parsed payload); exhaustion
whose final cause is a forcelisted status raises RetryError — a
RequestException that is neither a requests ConnectionError nor a
Timeout — with environment-dependent exception text `emsg`; exhaustion
whose final cause is a transport-level connection failure raises a
requests ConnectionError. -/
def sessionOf (transport : Nat → AttemptOutcome) (body : String)
    (payload : Payload) (emsg : String) : SessionResult :=
  match (runRetry transport retryTotal 0).1 with
  | .delivered (.resp s) => .ok s body payload
  | .delivered .connFail => .connExc
  | .exhausted =>
    match lastAttempt transport retryTotal 0 with
    | .resp _ => .reqExc emsg
    | .connFail => .connExc

/-- Claim C6: evaluation of the code at the failing input. The session
of `_create_session` places 429 in the retry forcelist, so every 429 is
retried and a server answering 429 on all attempts exhausts the budget
as a RetryError, which only the generic RequestException handler of
client.py lines 169-170 catches: `search` fails with the code-less
generic connection error, never with the RATE_LIMIT-coded error of the
unreachable branch at lines 146-149, so the claimed distinguishable
RATE_LIMIT outcome does not occur. -/
theorem C6_dead_rate_limit_branch :
    sessionOf (fun _ => .resp 429) "" [] "too many 429 error responses"
        = .reqExc "too many 429 error responses" ∧
    (search cfgD reqD emptyCache 0
        (sessionOf (fun _ => .resp 429) "" []
          "too many 429 error responses") okSet).result
      = .err (.connection
          ("Request error: " ++ "too many 429 error responses") none) ∧
    (search cfgD reqD emptyCache 0
        (sessionOf (fun _ => .resp 429) "" []
          "too many 429 error responses") okSet).result
      ≠ .err (.connection "Rate limited by OpenSerp server"
          (some "RATE_LIMIT")) := by
  decide

/-- Claim C7: a search whose final transport outcome is a delivered
response with status at least 400 other than 429 fails with an APIError
carrying that numeric status code and the response body text, and a
transport timeout yields a Timeout error whose message carries the
configured timeout value (client.py lines 150-164). -/
theorem C7_api_error_and_timeout (cfg : Config) (req : Request)
    (cache : CacheState) (now status : Int) (body : String) (p : Payload)
    (setBeh : CacheSetBehavior) (hval : validInput req)
    (hmiss : cacheHit cache now (requestKey req) = none)
    (h400 : 400 ≤ status) (h429 : ¬ status = 429) :
    (search cfg req cache now (.ok status body p) setBeh).result
        = .err (.apiError ("API error: " ++ body) status) ∧
    (search cfg req cache now .timeoutExc setBeh).result
        = .err (.timeoutError
            ("Request timeout after " ++ toString cfg.timeout ++ "s")) := by
  have hv := validationError_eq_none hval
  constructor <;> simp [search, hv, hmiss, h400, h429]

/-- Claim C7 witness: a concrete 404 with body "not found" yields an
APIError carrying 404 and the body, and a timeout yields the Timeout
error carrying the configured 30 seconds. -/
theorem C7_api_error_and_timeout_witness :
    (search cfgD reqD emptyCache 0 (.ok 404 "not found" []) okSet).result
        = .err (.apiError ("API error: " ++ "not found") 404) ∧
    (search cfgD reqD emptyCache 0 .timeoutExc okSet).result
        = .err (.timeoutError
            ("Request timeout after " ++ toString cfgD.timeout ++ "s")) :=
  C7_api_error_and_timeout cfgD reqD emptyCache 0 404 "not found" []
    okSet (by decide) (by decide) (by decide) (by decide)

/-- Whether a query-parameter key is one of the three date keys. -/
def isDateKey (k : String) : Bool :=
  k == "date" || k == "date_from" || k == "date_to"

/-- The date entries among a parameter list. -/
def dateEntries (ps : List (String × String)) : List (String × String) :=
  ps.filter (fun kv => isDateKey kv.1)

/-- The date entries of the assembled query parameters are exactly the
output of the date-handling branch of client.py lines 128-133. -/
theorem dateEntries_buildParams (text : String) (engines : List String)
    (limit offset : Int) (dateFrom dateTo language : Option String)
    (sort : String) :
    dateEntries
        (buildParams text engines limit offset dateFrom dateTo language
          sort)
      = dateParams dateFrom dateTo := by
  unfold buildParams dateEntries
  rw [List.filter_append, List.filter_append, List.filter_append]
  have hA : List.filter (fun kv => isDateKey kv.1)
      [("text", text), ("limit", toString limit),
        ("offset", toString offset), ("sort", sort)] = [] := by
    simp [isDateKey]
  have hB : List.filter (fun kv => isDateKey kv.1)
      (if engines.isEmpty then []
        else [("engines", String.intercalate "," engines)]) = [] := by
    split <;> simp [isDateKey]
  have hC : List.filter (fun kv => isDateKey kv.1)
      (if optTruthy language then [("lang", optStr language)] else [])
        = [] := by
    split <;> simp [isDateKey]
  have hD : List.filter (fun kv => isDateKey kv.1)
      (dateParams dateFrom dateTo) = dateParams dateFrom dateTo := by
    unfold dateParams
    split_ifs <;> simp [isDateKey]
  rw [hA, hB, hC, hD]
  simp

/-- Claim C8: when both date bounds are given (truthy), the outgoing
date parameters are the single combined parameter
"{from}..{to}" under key "date"; when only one bound is given, that
bound alone under its own single-sided parameter name; when neither is
given, no date parameter at all. -/
theorem C8_date_serialization (text : String) (engines : List String)
    (limit offset : Int) (dateFrom dateTo language : Option String)
    (sort : String) :
    (optTruthy dateFrom = true → optTruthy dateTo = true →
      dateEntries (buildParams text engines limit offset dateFrom dateTo
          language sort)
        = [("date", optStr dateFrom ++ ".." ++ optStr dateTo)]) ∧
    (optTruthy dateFrom = true → optTruthy dateTo = false →
      dateEntries (buildParams text engines limit offset dateFrom dateTo
          language sort)
        = [("date_from", optStr dateFrom)]) ∧
    (optTruthy dateFrom = false → optTruthy dateTo = true →
      dateEntries (buildParams text engines limit offset dateFrom dateTo
          language sort)
        = [("date_to", optStr dateTo)]) ∧
    (optTruthy dateFrom = false → optTruthy dateTo = false →
      dateEntries (buildParams text engines limit offset dateFrom dateTo
          language sort)
        = []) := by
  have hE := dateEntries_buildParams text engines limit offset dateFrom
    dateTo language sort
  refine ⟨?_, ?_, ?_, ?_⟩ <;> intro h1 h2 <;> rw [hE] <;>
    unfold dateParams <;> simp [h1, h2]

/-- Claim C8 witness: both bounds 20240101 and 20240201 combine into the
single "date" parameter "20240101..20240201"; only date_from given
yields the single-sided "date_from" parameter; neither yields none. -/
theorem C8_date_serialization_witness :
    dateEntries (buildParams "q" [] 10 0 (some "20240101")
        (some "20240201") none "relevance")
      = [("date", "20240101" ++ ".." ++ "20240201")] ∧
    dateEntries (buildParams "q" [] 10 0 (some "20240101") none none
        "relevance")
      = [("date_from", "20240101")] ∧
    dateEntries (buildParams "q" [] 10 0 none none none "relevance")
      = [] :=
  ⟨(C8_date_serialization "q" [] 10 0 (some "20240101")
      (some "20240201") none "relevance").1 (by decide) (by decide),
   (C8_date_serialization "q" [] 10 0 (some "20240101") none none
      "relevance").2.1 (by decide) (by decide),
   (C8_date_serialization "q" [] 10 0 none none none
      "relevance").2.2.2 (by decide) (by decide)⟩

/-- Claim C9: the cache-hit test of client.py line 115 uses the
truthiness of the cached value, so for every valid request whose stored
live cache entry is the falsy empty payload, `search` treats the entry
as a miss and issues a new network call instead of returning the cached
payload. -/
theorem C9_falsy_cache_entry (cfg : Config) (req : Request)
    (cache : CacheState) (now : Int) (session : SessionResult)
    (setBeh : CacheSetBehavior) (hval : validInput req)
    (hfalsy : cacheGet cache now (requestKey req) = some []) :
    cacheHit cache now (requestKey req) = none ∧
    (search cfg req cache now session setBeh).networkCalls = 1 := by
  have hv := validationError_eq_none hval
  have hmiss : cacheHit cache now (requestKey req) = none := by
    simp [cacheHit, hfalsy]
  refine ⟨hmiss, ?_⟩
  simp only [search, hv, hmiss]
  rcases session with ⟨status, body, payload⟩ | _ | _ | msg
  · by_cases h429 : status = 429
    · simp [h429]
    · by_cases h400 : 400 ≤ status
      · simp [h429, h400]
      · by_cases hr : setBeh.raises = true
        · simp [h429, h400, hr]
        · by_cases hb : setBeh.backendFails = true <;>
            simp [h429, h400, hr, hb]
  · simp
  · simp
  · simp

/-- Claim C9 witness: with the empty payload stored live under the
request key, a concrete identical search issues one network call. -/
theorem C9_falsy_cache_entry_witness :
    cacheHit ⟨[("search:q:all:10:0", [], 100)]⟩ 0 (requestKey reqD)
        = none ∧
    (search cfgD reqD ⟨[("search:q:all:10:0", [], 100)]⟩ 0
        (.ok 200 "" [("r", "1")]) okSet).networkCalls = 1 :=
  C9_falsy_cache_entry cfgD reqD ⟨[("search:q:all:10:0", [], 100)]⟩ 0
    (.ok 200 "" [("r", "1")]) okSet (by decide) (by decide)

/-- Claim C10: cache-key generation is not injective over distinct
valid requests: text "a" with engines ["x:1"] and text "a:x" with
engines ["1"] differ in text and engine list yet produce the same cache
key, so within the TTL window the second request is served the first
request's cached payload with zero network calls. -/
theorem C10_cache_key_collision :
    generateCacheKey "a" ["x:1"] 10 0 = generateCacheKey "a:x" ["1"] 10 0 ∧
    (("a" : String) ≠ "a:x" ∧ (["x:1"] : List String) ≠ ["1"]) ∧
    (search cfgD ⟨.str "a", ["x:1"], 10, 0, none, none, none, "relevance"⟩
        emptyCache 0 (.ok 200 "" [("k", "v")]) okSet).result
      = .ok [("k", "v")] ∧
    (search cfgD ⟨.str "a:x", ["1"], 10, 0, none, none, none, "relevance"⟩
        (search cfgD
          ⟨.str "a", ["x:1"], 10, 0, none, none, none, "relevance"⟩
          emptyCache 0 (.ok 200 "" [("k", "v")]) okSet).cacheAfter
        1 .connExc okSet).result = .ok [("k", "v")] ∧
    (search cfgD ⟨.str "a:x", ["1"], 10, 0, none, none, none, "relevance"⟩
        (search cfgD
          ⟨.str "a", ["x:1"], 10, 0, none, none, none, "relevance"⟩
          emptyCache 0 (.ok 200 "" [("k", "v")]) okSet).cacheAfter
        1 .connExc okSet).networkCalls = 0 := by
  decide

end OpenSerp
